import Mathlib

/-!
Shallow embedding of the Dapr-related logic of this repository:

* `src/containerapp/azext_containerapp/_dapr_utils.py` — the binding
  provisioner (`DaprUtils`): idempotent creation of a managed service and of
  the Dapr component bound to it.
* `src/k8s-extension/azext_k8s_extension/partner_extensions/Dapr.py` — the
  add-on installation policy (`Dapr.Create` and `Dapr._get_release_info`).

Opaque HTTP clients are modelled as records of functions over an abstract
client state `σ`; a raised Python exception is modelled as `Except.error`,
and `None` results as `Option.none`.  Call counts (lookups, creations,
interactive prompts) are returned explicitly so that claims about "no client
call" / "no prompt" are statable.
-/

namespace DaprSpec

/-- A resource definition returned by the control plane.  Only the `id`
field is inspected by the code under verification (via `safe_get`); `tag`
stands for the rest of the payload so that distinct resources are
distinguishable. -/
structure ResourceDef where
  id : Option String
  tag : String
deriving DecidableEq, Repr

/-- Errors raised by the code.  `validationErrorFrom` models
`raise ValidationError(msg) from e` — a creation failure carrying the
original cause; `invalidArgumentValueError` models
`InvalidArgumentValueError` from the k8s-extension handler. -/
inductive CliError where
  | validationError (msg : String)
  | validationErrorFrom (msg : String) (cause : String)
  | invalidArgumentValueError (msg : String)
deriving DecidableEq, Repr

/-- `DaprUtils.supported_dapr_components`: the static compatibility table. -/
def supported_dapr_components : List (String × List String) :=
  [("state", ["redis", "postgres"]), ("pubsub", ["kafka", "redis"])]

/-- The keys of `DaprUtils._get_supported_services()`: service types that
have a registered creation callback. -/
def supported_service_types : List String := ["redis", "postgres", "kafka"]

/-- The guard of `DaprUtils._create_dapr_component_from_service`:
`component_type in supported_dapr_components and
service_type in supported_dapr_components[component_type]`. -/
def isSupportedComponentPair (component_type service_type : String) : Bool :=
  match supported_dapr_components.find? (fun p => p.1 == component_type) with
  | none => false
  | some p => p.2.contains service_type

/-- `DaprUtils._get_service_name`. -/
def get_service_name (service_type : String) : String :=
  "dapr-" ++ service_type

/-- `DaprUtils._get_dapr_component_name`. -/
def get_dapr_component_name (component_type service_type : String) : String :=
  (if component_type == "state" then "statestore" else component_type)
    ++ "-" ++ service_type

/-- `DaprServiceComponentBindingModel` after the field assignments. -/
structure DaprServiceComponentBinding where
  name : String
  serviceId : String
deriving DecidableEq, Repr

/-- The Dapr component payload built by
`DaprUtils.get_dapr_component_def_from_service`. -/
structure DaprComponent where
  componentType : String
  version : String
  ignoreErrors : Bool
  serviceComponentBind : DaprServiceComponentBinding
deriving DecidableEq, Repr

/-- `DaprUtils.get_dapr_component_def_from_service`. -/
def get_dapr_component_def_from_service (component_type service_type
    service_name service_id : String) (component_version : String := "v1")
    (component_ignore_errors : Bool := false) : DaprComponent :=
  { componentType := component_type ++ "." ++ service_type
    version := component_version
    ignoreErrors := component_ignore_errors
    serviceComponentBind := { name := service_name, serviceId := service_id } }

/-- The abstract Resource Client consumed by `DaprUtils`, over a client
state `σ`.  `showService` models `ContainerAppClient.show(cmd, rg, name)`;
`createService` models the creation callback from the dispatch table,
`create_service_func(cmd, name, env, rg)` (it may change the control-plane
state); `showComponent` models `DaprComponentPreviewClient.show` and
`createOrUpdateComponent` models `DaprComponentPreviewClient.create_or_update`.
`Except.error` is a raised exception, `Option.none` a `None` result. -/
structure ResourceClient (σ : Type) where
  showService : String → String → σ → Except String (Option ResourceDef)
  createService : String → String → String → String → σ →
    Except String (Option ResourceDef) × σ
  showComponent : String → String → String → σ → Except String (Option ResourceDef)
  createOrUpdateComponent : String → String → String → DaprComponent → σ →
    Except String (Option ResourceDef) × σ

/-- The `try ... except Exception: pass` wrapper around a lookup: a raised
exception is swallowed and the result stays `None`. -/
def swallowShow (r : Except String (Option ResourceDef)) : Option ResourceDef :=
  match r with
  | .error _ => none
  | .ok v => v

/-- Outcome of one `_create_service` / `_create_dapr_component_from_service`
invocation: the returned definition or raised error, the client state after
the call, and how many lookup (`show`) and creation calls were made. -/
structure CallResult (σ : Type) where
  result : Except CliError ResourceDef
  state : σ
  showCalls : Nat
  createCalls : Nat

/-- `DaprUtils._create_service`. -/
def create_service {σ : Type} (c : ResourceClient σ) (service_type
    service_name resource_group_name environment_name : String) (s : σ) :
    CallResult σ :=
  if supported_service_types.contains service_type then
    match swallowShow (c.showService resource_group_name service_name s) with
    | some d => ⟨.ok d, s, 1, 0⟩
    | none =>
      match c.createService service_type service_name environment_name
          resource_group_name s with
      | (.error e, s1) =>
        ⟨.error (.validationErrorFrom ("Failed to create service " ++
          service_name ++ " of type " ++ service_type) e), s1, 1, 1⟩
      | (.ok none, s1) =>
        ⟨.error (.validationError ("Failed to create service " ++ service_name
          ++ " of type " ++ service_type ++ ", service definition is None")),
          s1, 1, 1⟩
      | (.ok (some d), s1) => ⟨.ok d, s1, 1, 1⟩
  else
    ⟨.error (.validationError ("Service type " ++ service_type ++
      " is not supported.")), s, 0, 0⟩

/-- `DaprUtils._create_dapr_component_from_service`. -/
def create_dapr_component_from_service {σ : Type} (c : ResourceClient σ)
    (component_type service_type service_name service_id
    resource_group_name environment_name : String) (s : σ) : CallResult σ :=
  if isSupportedComponentPair component_type service_type then
    let component_name := get_dapr_component_name component_type service_type
    match swallowShow (c.showComponent resource_group_name environment_name
        component_name s) with
    | some d => ⟨.ok d, s, 1, 0⟩
    | none =>
      let component_def := get_dapr_component_def_from_service component_type
        service_type service_name service_id
      match c.createOrUpdateComponent resource_group_name environment_name
          component_name component_def s with
      | (.error e, s1) =>
        ⟨.error (.validationErrorFrom ("Failed to create Dapr component " ++
          component_name) e), s1, 1, 1⟩
      | (.ok none, s1) =>
        ⟨.error (.validationError ("Failed to create Dapr component " ++
          component_name ++ ", component definition is None")), s1, 1, 1⟩
      | (.ok (some d), s1) => ⟨.ok d, s1, 1, 1⟩
  else
    ⟨.error (.validationError ("Component type " ++ component_type ++
      " with service type " ++ service_type ++ " is not supported.")), s, 0, 0⟩

/-- `DaprUtils.create_service_and_dapr_component`: the provisioning entry
point.  Returns the pair `(service_id, component_id)` or the first raised
error, together with the final client state. -/
def create_service_and_dapr_component {σ : Type} (c : ResourceClient σ)
    (component_type service_type resource_group_name environment_name : String)
    (s : σ) : Except CliError (String × String) × σ :=
  let service_name := get_service_name service_type
  let r1 := create_service c service_type service_name resource_group_name
    environment_name s
  match r1.result with
  | .error e => (.error e, r1.state)
  | .ok service_def =>
    match service_def.id with
    | none =>
      (.error (.validationError ("Failed to create service " ++ service_name
        ++ " of type " ++ service_type ++ ", service id is None")), r1.state)
    | some service_id =>
      let r2 := create_dapr_component_from_service c component_type
        service_type service_name service_id resource_group_name
        environment_name r1.state
      match r2.result with
      | .error e => (.error e, r2.state)
      | .ok component_def =>
        match component_def.id with
        | none =>
          (.error (.validationError ("Failed to create Dapr component of type "
            ++ component_type ++ " with service type " ++ service_type ++
            ", component id is None")), r2.state)
        | some component_id => (.ok (service_id, component_id), r2.state)

/-! ## Add-on installation policy (`Dapr.py`) -/

/-- A Python `dict` of string keys and string values, as an ordered
association list (insertion order, key assignment replaces in place). -/
abbrev Dict := List (String × String)

/-- `d.get(k)` / `d.get(k, None)`. -/
def dget (d : Dict) (k : String) : Option String :=
  (d.find? (fun p => p.1 == k)).map (fun p => p.2)

/-- `d.get(k, dflt)` with a string default. -/
def dgetD (d : Dict) (k dflt : String) : String :=
  (dget d k).getD dflt

/-- `d[k] = v`: replace the value at `k` in place, else append. -/
def dset : Dict → String → String → Dict
  | [], k, v => [(k, v)]
  | (k1, v1) :: rest, k, v =>
    if k1 == k then (k1, v) :: rest else (k1, v1) :: dset rest k v

/-- Python truthiness of `d.get(k, None)`: `None` and `""` are falsy. -/
def truthyOpt (o : Option String) : Bool :=
  match o with
  | none => false
  | some s => s != ""

/-- Python `x or dflt` where `x` is an optional string (`None` or `""`
falls back to the default). -/
def pyOrOpt (o : Option String) (dflt : String) : String :=
  match o with
  | none => dflt
  | some s => if s == "" then dflt else s

/-- Python `x or dflt` where `x` is a string. -/
def pyOrStr (s dflt : String) : String :=
  if s == "" then dflt else s

/-- The Interactive Prompt capability consumed by `_get_release_info`:
the yes/no answer to `MSG_IS_DAPR_INSTALLED` and the free-text answers
(possibly empty) to the release-name and release-namespace prompts. -/
structure Prompter where
  isDaprInstalled : Bool
  promptedReleaseName : String
  promptedReleaseNamespace : String
deriving DecidableEq, Repr

/-- Result of `Dapr._get_release_info`, with the number of interactive
prompts issued. -/
structure ReleaseInfo where
  name : Option String
  «namespace» : Option String
  daprExists : Bool
  prompts : Nat
deriving DecidableEq, Repr

/-- `Dapr._get_release_info`.  `release_name` / `release_namespace` may be
Python `None`, hence `Option String`. -/
def get_release_info (p : Prompter) (release_name release_namespace :
    Option String) (configuration_settings : Dict) : ReleaseInfo :=
  if dgetD configuration_settings "skipExistingDaprCheck" "false" == "true" then
    ⟨release_name, release_namespace, false, 0⟩
  else if truthyOpt (dget configuration_settings "existingDaprReleaseName") &&
      truthyOpt (dget configuration_settings "existingDaprReleaseNamespace") then
    ⟨dget configuration_settings "existingDaprReleaseName",
      dget configuration_settings "existingDaprReleaseNamespace", true, 0⟩
  else
    let name := pyOrOpt release_name "dapr"
    let ns := pyOrOpt release_namespace "dapr-system"
    if p.isDaprInstalled then
      ⟨some (pyOrStr p.promptedReleaseName "dapr"),
        some (pyOrStr p.promptedReleaseNamespace "dapr-system"), true, 3⟩
    else
      ⟨some name, some ns, false, 1⟩

/-- The `Extension` descriptor assembled by `Dapr.Create`.  The scope is
always `Scope(cluster=ScopeCluster(release_namespace=...), namespace=None)`,
modelled by its release namespace. -/
structure Extension where
  extension_type : String
  auto_upgrade_minor_version : Bool
  release_train : String
  version : Option String
  scope_cluster_release_namespace : String
  configuration_settings : Dict
  configuration_protected_settings : Dict
deriving DecidableEq, Repr

/-- Result of `Dapr.Create`: the returned triple (or raised error), the
post-state of the caller-supplied `configuration_settings` dictionary
(which the code mutates in place), and the number of prompts issued. -/
structure CreateResult where
  result : Except CliError (Extension × Option String × Bool)
  settings : Dict
  prompts : Nat
deriving Repr

/-- `Dapr.Create`. -/
def daprCreate (p : Prompter) (name : Option String) (cluster_type : String)
    (extension_type : String) (scope : Option String)
    (auto_upgrade_minor_version : Bool) (release_train : Option String)
    (version : Option String) (release_namespace : Option String)
    (configuration_settings configuration_protected_settings : Dict) :
    CreateResult :=
  if scope = some "namespace" then
    ⟨.error (.invalidArgumentValueError ("Invalid scope namespace. This " ++
      "extension can be installed only at cluster scope.")),
      configuration_settings, 0⟩
  else
    let ri := get_release_info p name release_namespace configuration_settings
    let cs1 := if ri.daprExists then
        dset configuration_settings "global.ha.enabled" "false"
      else configuration_settings
    let cs2 := if cluster_type.toLower == "" ||
        cluster_type.toLower == "managedclusters" then
        dset cs1 "global.clusterType" "managedclusters"
      else cs1
    let ext : Extension :=
      { extension_type := extension_type
        auto_upgrade_minor_version := auto_upgrade_minor_version
        release_train := pyOrOpt release_train "stable"
        version := version
        scope_cluster_release_namespace := pyOrOpt ri.namespace "dapr-system"
        configuration_settings := cs2
        configuration_protected_settings := configuration_protected_settings }
    ⟨.ok (ext, ri.name, false), cs2, ri.prompts⟩

/-- The patch descriptor returned by the update path. -/
structure PatchDescriptor where
  auto_upgrade_minor_version : Bool
  release_train : Option String
  version : String
  configuration_settings : Dict
  configuration_protected_settings : Dict
deriving Repr

/-- Modelled from the spec: the repository revision under `src/` contains no
`Update` handler in `Dapr.py`; `buildUpdateRequest` is reconstructed from
spec section 4.2: if the requested `version` is lexically less than
`originalExtension.version` (a downgrade), force the CRD-apply hook key
`hooks.applyCrds` to `"false"`, otherwise force it to `"true"`; if after
this mutation the configuration map is empty, restore the original
(pre-mutation) map. -/
def buildUpdateRequest (auto_upgrade_minor_version : Bool)
    (release_train : Option String) (version : String)
    (configuration_settings configuration_protected_settings : Dict)
    (original_version : String) : PatchDescriptor :=
  let cs1 := if version < original_version then
      dset configuration_settings "hooks.applyCrds" "false"
    else
      dset configuration_settings "hooks.applyCrds" "true"
  let final := if cs1.isEmpty then configuration_settings else cs1
  { auto_upgrade_minor_version := auto_upgrade_minor_version
    release_train := release_train
    version := version
    configuration_settings := final
    configuration_protected_settings := configuration_protected_settings }

/-! ## Dictionary lemmas -/

theorem dget_dset_self (d : Dict) (k v : String) :
    dget (dset d k v) k = some v := by
  induction d with
  | nil => simp [dget, dset]
  | cons hd tl ih =>
    obtain ⟨k1, v1⟩ := hd
    by_cases h : k1 = k
    · simp [dget, dset, h]
    · simp only [dset, beq_iff_eq, h, if_false]
      simpa [dget, h] using ih

theorem dget_dset_ne (d : Dict) (k1 k2 v : String) (h : k1 ≠ k2) :
    dget (dset d k2 v) k1 = dget d k1 := by
  induction d with
  | nil => simp [dget, dset, Ne.symm h]
  | cons hd tl ih =>
    obtain ⟨k3, v3⟩ := hd
    by_cases h3 : k3 = k2
    · subst h3
      simp [dget, dset, Ne.symm h]
    · simp only [dset, beq_iff_eq, h3, if_false]
      by_cases h1 : k3 = k1
      · simp [dget, h1]
      · simpa [dget, h1] using ih

theorem dset_isEmpty (d : Dict) (k v : String) :
    (dset d k v).isEmpty = false := by
  cases d with
  | nil => rfl
  | cons hd tl =>
    obtain ⟨k1, v1⟩ := hd
    by_cases h : k1 = k <;> simp [dset, h]

/-! ## Claims -/

/-- C8: for every supported `(componentType, serviceType)` pair, the derived
component name equals `"statestore-" ++ serviceType` when the component type
is `"state"`, and `componentType ++ "-" ++ serviceType` otherwise. -/
theorem component_name_derivation (component_type service_type : String)
    (_h : isSupportedComponentPair component_type service_type = true) :
    get_dapr_component_name component_type service_type =
      if component_type = "state" then "statestore-" ++ service_type
      else component_type ++ "-" ++ service_type := by
  by_cases hc : component_type = "state"
  · subst hc
    rfl
  · simp [get_dapr_component_name, hc]

/-- Witness for C8 at the supported pair `("state", "redis")`. -/
theorem component_name_derivation_witness :
    isSupportedComponentPair "state" "redis" = true ∧
      get_dapr_component_name "state" "redis" =
        (if "state" = "state" then "statestore-" ++ "redis"
         else "state" ++ "-" ++ "redis") :=
  ⟨by decide, component_name_derivation "state" "redis" (by decide)⟩

/-- C7: with `skipExistingDaprCheck` set to `"true"` in the configuration
settings, `_get_release_info` returns the requested name and namespace
unchanged and `dapr_exists = false`, issuing zero interactive prompts. -/
theorem release_info_skip_check (p : Prompter)
    (release_name release_namespace : Option String)
    (configuration_settings : Dict)
    (h : dget configuration_settings "skipExistingDaprCheck" = some "true") :
    get_release_info p release_name release_namespace configuration_settings =
      ⟨release_name, release_namespace, false, 0⟩ := by
  simp [get_release_info, dgetD, h]

/-- Witness for C7 with a prompter that would otherwise answer yes. -/
theorem release_info_skip_check_witness :
    dget [("skipExistingDaprCheck", "true")] "skipExistingDaprCheck" =
        some "true" ∧
      get_release_info ⟨true, "other", "other-ns"⟩ (some "mydapr")
          (some "myns") [("skipExistingDaprCheck", "true")] =
        ⟨some "mydapr", some "myns", false, 0⟩ :=
  ⟨by decide, release_info_skip_check _ _ _ _ (by decide)⟩

/-- C6: for every input with `scope = "namespace"`, `Dapr.Create` raises
`InvalidArgumentValueError` with zero prompts issued and the caller-supplied
configuration settings untouched (no client interaction is modelled at all in
`Create`; the rejection happens before `_get_release_info` can prompt). -/
theorem create_rejects_namespace_scope (p : Prompter) (name : Option String)
    (cluster_type extension_type : String) (auto_upgrade_minor_version : Bool)
    (release_train version release_namespace : Option String)
    (configuration_settings configuration_protected_settings : Dict) :
    daprCreate p name cluster_type extension_type (some "namespace")
        auto_upgrade_minor_version release_train version release_namespace
        configuration_settings configuration_protected_settings =
      ⟨.error (.invalidArgumentValueError ("Invalid scope namespace. This " ++
        "extension can be installed only at cluster scope.")),
        configuration_settings, 0⟩ := by
  rfl

/-- C5: whenever the release-info resolution reports that Dapr already
exists, `Dapr.Create` returns an extension whose configuration map has
`global.ha.enabled = "false"`, regardless of its previous value. -/
theorem create_forces_ha_disabled (p : Prompter) (name : Option String)
    (cluster_type extension_type : String) (scope : Option String)
    (auto_upgrade_minor_version : Bool)
    (release_train version release_namespace : Option String)
    (configuration_settings configuration_protected_settings : Dict)
    (hscope : scope ≠ some "namespace")
    (hex : (get_release_info p name release_namespace
      configuration_settings).daprExists = true) :
    ∃ ext rn,
      (daprCreate p name cluster_type extension_type scope
          auto_upgrade_minor_version release_train version release_namespace
          configuration_settings configuration_protected_settings).result =
        .ok (ext, rn, false) ∧
      dget ext.configuration_settings "global.ha.enabled" = some "false" := by
  simp only [daprCreate, if_neg hscope, hex, if_true]
  refine ⟨_, _, rfl, ?_⟩
  by_cases hct : (cluster_type.toLower == "" ||
      cluster_type.toLower == "managedclusters") = true
  · simp only [hct, if_true]
    rw [dget_dset_ne _ _ _ _ (by decide), dget_dset_self]
  · rw [Bool.not_eq_true] at hct
    simp only [hct, Bool.false_eq_true, if_false]
    rw [dget_dset_self]

/-- Witness for C5: Dapr reported as existing via the configuration keys,
caller supplied `global.ha.enabled = "true"`. -/
theorem create_forces_ha_disabled_witness :
    ((some "cluster" : Option String) ≠ some "namespace") ∧
      (get_release_info ⟨false, "", ""⟩ none (some "dapr-system")
        [("existingDaprReleaseName", "dapr"),
         ("existingDaprReleaseNamespace", "dapr-system"),
         ("global.ha.enabled", "true")]).daprExists = true ∧
      (∃ ext rn,
        (daprCreate ⟨false, "", ""⟩ none "managedClusters" "Microsoft.Dapr"
            (some "cluster") true none none (some "dapr-system")
            [("existingDaprReleaseName", "dapr"),
             ("existingDaprReleaseNamespace", "dapr-system"),
             ("global.ha.enabled", "true")] []).result =
          .ok (ext, rn, false) ∧
        dget ext.configuration_settings "global.ha.enabled" = some "false") :=
  ⟨by decide, by decide,
    create_forces_ha_disabled _ _ _ _ _ _ _ _ _ _ _ (by decide) (by decide)⟩

/-- C10: `Dapr.Create` writes its configuration overrides into the
caller-supplied `configuration_settings` dictionary itself (modelled as the
post-state `settings`): when an existing installation is detected it writes
`global.ha.enabled = "false"` there, when the cluster type is empty or
`managedclusters` (case-insensitively) it writes
`global.clusterType = "managedclusters"` there, and the returned descriptor
carries that same mutated dictionary. -/
theorem create_mutates_caller_settings (p : Prompter) (name : Option String)
    (cluster_type extension_type : String) (scope : Option String)
    (auto_upgrade_minor_version : Bool)
    (release_train version release_namespace : Option String)
    (configuration_settings configuration_protected_settings : Dict)
    (hscope : scope ≠ some "namespace") :
    (∃ ext rn,
      (daprCreate p name cluster_type extension_type scope
          auto_upgrade_minor_version release_train version release_namespace
          configuration_settings configuration_protected_settings).result =
        .ok (ext, rn, false) ∧
      ext.configuration_settings =
        (daprCreate p name cluster_type extension_type scope
          auto_upgrade_minor_version release_train version release_namespace
          configuration_settings configuration_protected_settings).settings)
    ∧ ((get_release_info p name release_namespace
          configuration_settings).daprExists = true →
        dget (daprCreate p name cluster_type extension_type scope
            auto_upgrade_minor_version release_train version release_namespace
            configuration_settings configuration_protected_settings).settings
          "global.ha.enabled" = some "false")
    ∧ ((cluster_type.toLower == "" ||
          cluster_type.toLower == "managedclusters") = true →
        dget (daprCreate p name cluster_type extension_type scope
            auto_upgrade_minor_version release_train version release_namespace
            configuration_settings configuration_protected_settings).settings
          "global.clusterType" = some "managedclusters") := by
  refine ⟨?_, ?_, ?_⟩
  · simp only [daprCreate, if_neg hscope]
    exact ⟨_, _, rfl, rfl⟩
  · intro hex
    simp only [daprCreate, if_neg hscope, hex, if_true]
    by_cases hct : (cluster_type.toLower == "" ||
        cluster_type.toLower == "managedclusters") = true
    · simp only [hct, if_true]
      rw [dget_dset_ne _ _ _ _ (by decide), dget_dset_self]
    · rw [Bool.not_eq_true] at hct
      simp only [hct, Bool.false_eq_true, if_false]
      rw [dget_dset_self]
  · intro hct
    simp only [daprCreate, if_neg hscope, hct, if_true]
    rw [dget_dset_self]

/-- Witness for C10: existing Dapr detected through the configuration keys
and a managed cluster type, so both keys are written into the caller map. -/
theorem create_mutates_caller_settings_witness :
    ((some "cluster" : Option String) ≠ some "namespace") ∧
      ((∃ ext rn,
        (daprCreate ⟨false, "", ""⟩ none "managedClusters" "Microsoft.Dapr"
            (some "cluster") true none none (some "dapr-system")
            [("existingDaprReleaseName", "dapr"),
             ("existingDaprReleaseNamespace", "dapr-system")] []).result =
          .ok (ext, rn, false) ∧
        ext.configuration_settings =
          (daprCreate ⟨false, "", ""⟩ none "managedClusters" "Microsoft.Dapr"
              (some "cluster") true none none (some "dapr-system")
              [("existingDaprReleaseName", "dapr"),
               ("existingDaprReleaseNamespace", "dapr-system")] []).settings)
      ∧ ((get_release_info ⟨false, "", ""⟩ none (some "dapr-system")
            [("existingDaprReleaseName", "dapr"),
             ("existingDaprReleaseNamespace", "dapr-system")]).daprExists =
              true →
          dget (daprCreate ⟨false, "", ""⟩ none "managedClusters"
              "Microsoft.Dapr" (some "cluster") true none none
              (some "dapr-system")
              [("existingDaprReleaseName", "dapr"),
               ("existingDaprReleaseNamespace", "dapr-system")] []).settings
            "global.ha.enabled" = some "false")
      ∧ (("managedClusters".toLower == "" ||
            "managedClusters".toLower == "managedclusters") = true →
          dget (daprCreate ⟨false, "", ""⟩ none "managedClusters"
              "Microsoft.Dapr" (some "cluster") true none none
              (some "dapr-system")
              [("existingDaprReleaseName", "dapr"),
               ("existingDaprReleaseNamespace", "dapr-system")] []).settings
            "global.clusterType" = some "managedclusters")) :=
  ⟨by decide,
    create_mutates_caller_settings _ _ _ _ _ _ _ _ _ _ _ (by decide)⟩

/-- C9: `buildUpdateRequest` with a requested version less than the original
extension version returns a configuration map with
`hooks.applyCrds = "false"`; with a requested version greater than the
original it returns `hooks.applyCrds = "true"`. -/
theorem update_request_applyCrds (auto_upgrade_minor_version : Bool)
    (release_train : Option String) (version : String)
    (configuration_settings configuration_protected_settings : Dict)
    (original_version : String) :
    (version < original_version →
      dget (buildUpdateRequest auto_upgrade_minor_version release_train
          version configuration_settings configuration_protected_settings
          original_version).configuration_settings "hooks.applyCrds" =
        some "false")
    ∧ (original_version < version →
      dget (buildUpdateRequest auto_upgrade_minor_version release_train
          version configuration_settings configuration_protected_settings
          original_version).configuration_settings "hooks.applyCrds" =
        some "true") := by
  constructor
  · intro h
    simp only [buildUpdateRequest, if_pos h, dset_isEmpty,
      Bool.false_eq_true, if_false]
    rw [dget_dset_self]
  · intro h
    simp only [buildUpdateRequest, if_neg (lt_asymm h), dset_isEmpty,
      Bool.false_eq_true, if_false]
    rw [dget_dset_self]

/-- Witness for C9: a downgrade from version 1.1 to 1.0 and an upgrade from
1.0 to 1.1. -/
theorem update_request_applyCrds_witness :
    (("1.0" : String) < "1.1") ∧
      dget (buildUpdateRequest true none "1.0" [] []
        "1.1").configuration_settings "hooks.applyCrds" = some "false" ∧
      dget (buildUpdateRequest true none "1.1" [] []
        "1.0").configuration_settings "hooks.applyCrds" = some "true" := by
  have h : ("1.0" : String) < "1.1" := by
    rw [String.lt_iff_toList_lt]
    decide
  exact ⟨h, (update_request_applyCrds true none "1.0" [] [] "1.1").1 h,
    (update_request_applyCrds true none "1.1" [] [] "1.0").2 h⟩

/-! ## Concrete clients used by witnesses -/

/-- Control-plane state for witnesses: which resources exist. -/
structure WitState where
  serviceCreated : Bool
  componentCreated : Bool
deriving DecidableEq, Repr

/-- The service definition returned by the witness clients. -/
def witServiceDef : ResourceDef := ⟨some "/subscriptions/s/dapr-redis", "svc"⟩

/-- The component definition returned by the witness clients. -/
def witComponentDef : ResourceDef := ⟨some "/subscriptions/s/statestore", "cmp"⟩

/-- A well-behaved client: lookups find a resource exactly when it was
created earlier, creations succeed and record the creation. -/
def witClient : ResourceClient WitState where
  showService := fun _ _ s =>
    .ok (if s.serviceCreated then some witServiceDef else none)
  createService := fun _ _ _ _ s =>
    (.ok (some witServiceDef), { s with serviceCreated := true })
  showComponent := fun _ _ _ s =>
    .ok (if s.componentCreated then some witComponentDef else none)
  createOrUpdateComponent := fun _ _ _ _ s =>
    (.ok (some witComponentDef), { s with componentCreated := true })

/-- A client whose lookups raise an exception and whose creations succeed. -/
def witClientShowRaises : ResourceClient WitState where
  showService := fun _ _ _ => .error "show failed"
  createService := fun _ _ _ _ s =>
    (.ok (some witServiceDef), { s with serviceCreated := true })
  showComponent := fun _ _ _ _ => .error "show failed"
  createOrUpdateComponent := fun _ _ _ _ s =>
    (.ok (some witComponentDef), { s with componentCreated := true })

/-- A client whose lookups find nothing and whose creations raise. -/
def witClientCreateRaises : ResourceClient WitState where
  showService := fun _ _ _ => .ok none
  createService := fun _ _ _ _ s => (.error "create failed", s)
  showComponent := fun _ _ _ _ => .ok none
  createOrUpdateComponent := fun _ _ _ _ s => (.error "create failed", s)

/-- C1: for a supported service type, if the lookup reports the service as
present, `_create_service` returns the existing definition unchanged with no
creation call; and calling it twice against a client that reports the
service present after the first call makes exactly one creation call in
total (the second call returns the now-existing definition with none). -/
theorem ensure_service_idempotent {σ : Type} (c : ResourceClient σ)
    (service_type service_name resource_group_name environment_name : String)
    (hsup : supported_service_types.contains service_type = true) :
    (∀ s d, c.showService resource_group_name service_name s = .ok (some d) →
      create_service c service_type service_name resource_group_name
        environment_name s = ⟨.ok d, s, 1, 0⟩)
    ∧ (∀ s d1,
        swallowShow (c.showService resource_group_name service_name s) = none →
        c.showService resource_group_name service_name
            (create_service c service_type service_name resource_group_name
              environment_name s).state = .ok (some d1) →
        (create_service c service_type service_name resource_group_name
            environment_name s).createCalls +
          (create_service c service_type service_name resource_group_name
            environment_name
            (create_service c service_type service_name resource_group_name
              environment_name s).state).createCalls = 1
        ∧ create_service c service_type service_name resource_group_name
            environment_name
            (create_service c service_type service_name resource_group_name
              environment_name s).state =
          ⟨.ok d1, (create_service c service_type service_name
            resource_group_name environment_name s).state, 1, 0⟩) := by
  have hfind : ∀ s d,
      c.showService resource_group_name service_name s = .ok (some d) →
      create_service c service_type service_name resource_group_name
        environment_name s = ⟨.ok d, s, 1, 0⟩ := by
    intro s d hshow
    simp only [create_service, hsup, if_true, hshow, swallowShow]
  refine ⟨hfind, ?_⟩
  intro s d1 hmiss hshow2
  have h2 := hfind _ _ hshow2
  rw [h2]
  have h1 : (create_service c service_type service_name resource_group_name
      environment_name s).createCalls = 1 := by
    simp only [create_service, hsup, if_true, hmiss]
    rcases hx : c.createService service_type service_name environment_name
      resource_group_name s with ⟨r, s1⟩
    cases r with
    | error e => rfl
    | ok v => cases v with
      | none => rfl
      | some d => rfl
  rw [h1]
  exact ⟨rfl, rfl⟩

/-- Witness for C1 with the stateful witness client: the service is absent
initially, the first call creates it, the second finds it. -/
theorem ensure_service_idempotent_witness :
    supported_service_types.contains "redis" = true ∧
      (create_service witClient "redis" "dapr-redis" "rg" "env" ⟨true, false⟩ =
        ⟨.ok witServiceDef, ⟨true, false⟩, 1, 0⟩) ∧
      swallowShow (witClient.showService "rg" "dapr-redis" ⟨false, false⟩) =
        none ∧
      witClient.showService "rg" "dapr-redis"
          (create_service witClient "redis" "dapr-redis" "rg" "env"
            ⟨false, false⟩).state = .ok (some witServiceDef) ∧
      ((create_service witClient "redis" "dapr-redis" "rg" "env"
          ⟨false, false⟩).createCalls +
        (create_service witClient "redis" "dapr-redis" "rg" "env"
          (create_service witClient "redis" "dapr-redis" "rg" "env"
            ⟨false, false⟩).state).createCalls = 1) :=
  ⟨by decide, (ensure_service_idempotent witClient "redis" "dapr-redis" "rg"
      "env" (by decide)).1 ⟨true, false⟩ witServiceDef rfl,
    rfl, rfl,
    ((ensure_service_idempotent witClient "redis" "dapr-redis" "rg" "env"
      (by decide)).2 ⟨false, false⟩ witServiceDef rfl rfl).1⟩

/-- C2: every `(componentType, serviceType)` pair outside the static
compatibility table is rejected with a validation error before any client
call (no lookup, no creation, state unchanged). -/
theorem unsupported_component_pair_rejected {σ : Type} (c : ResourceClient σ)
    (component_type service_type service_name service_id resource_group_name
    environment_name : String) (s : σ)
    (h : isSupportedComponentPair component_type service_type = false) :
    create_dapr_component_from_service c component_type service_type
        service_name service_id resource_group_name environment_name s =
      ⟨.error (.validationError ("Component type " ++ component_type ++
        " with service type " ++ service_type ++ " is not supported.")),
        s, 0, 0⟩ := by
  simp only [create_dapr_component_from_service, h, Bool.false_eq_true,
    if_false]

/-- Witness for C2 at `("pubsub", "postgres")`. -/
theorem unsupported_component_pair_rejected_witness :
    isSupportedComponentPair "pubsub" "postgres" = false ∧
      create_dapr_component_from_service witClient "pubsub" "postgres"
          "dapr-postgres" "/subscriptions/s/dapr-postgres" "rg" "env"
          ⟨false, false⟩ =
        ⟨.error (.validationError ("Component type " ++ "pubsub" ++
          " with service type " ++ "postgres" ++ " is not supported.")),
          ⟨false, false⟩, 0, 0⟩ :=
  ⟨by decide, unsupported_component_pair_rejected witClient "pubsub"
    "postgres" "dapr-postgres" "/subscriptions/s/dapr-postgres" "rg" "env"
    ⟨false, false⟩ (by decide)⟩

/-- C3: exceptions raised by the `show` lookup are swallowed and treated as
"resource does not exist" — the flow proceeds to attempt creation — both in
`_create_service` and in `_create_dapr_component_from_service`; exceptions
raised by a creation call are never swallowed and are re-raised as a
creation-failure `ValidationError` carrying the original cause. -/
theorem lookup_swallowed_create_raised {σ : Type} (c : ResourceClient σ)
    (component_type service_type service_name service_id resource_group_name
    environment_name : String)
    (hsvc : supported_service_types.contains service_type = true)
    (hcomp : isSupportedComponentPair component_type service_type = true) :
    (∀ s e d s1,
      c.showService resource_group_name service_name s = .error e →
      c.createService service_type service_name environment_name
        resource_group_name s = (.ok (some d), s1) →
      create_service c service_type service_name resource_group_name
        environment_name s = ⟨.ok d, s1, 1, 1⟩)
    ∧ (∀ s e s1,
      swallowShow (c.showService resource_group_name service_name s) = none →
      c.createService service_type service_name environment_name
        resource_group_name s = (.error e, s1) →
      create_service c service_type service_name resource_group_name
        environment_name s =
        ⟨.error (.validationErrorFrom ("Failed to create service " ++
          service_name ++ " of type " ++ service_type) e), s1, 1, 1⟩)
    ∧ (∀ s e d s1,
      c.showComponent resource_group_name environment_name
        (get_dapr_component_name component_type service_type) s = .error e →
      c.createOrUpdateComponent resource_group_name environment_name
        (get_dapr_component_name component_type service_type)
        (get_dapr_component_def_from_service component_type service_type
          service_name service_id) s = (.ok (some d), s1) →
      create_dapr_component_from_service c component_type service_type
        service_name service_id resource_group_name environment_name s =
        ⟨.ok d, s1, 1, 1⟩)
    ∧ (∀ s e s1,
      swallowShow (c.showComponent resource_group_name environment_name
        (get_dapr_component_name component_type service_type) s) = none →
      c.createOrUpdateComponent resource_group_name environment_name
        (get_dapr_component_name component_type service_type)
        (get_dapr_component_def_from_service component_type service_type
          service_name service_id) s = (.error e, s1) →
      create_dapr_component_from_service c component_type service_type
        service_name service_id resource_group_name environment_name s =
        ⟨.error (.validationErrorFrom ("Failed to create Dapr component " ++
          get_dapr_component_name component_type service_type) e),
          s1, 1, 1⟩) := by
  refine ⟨?_, ?_, ?_, ?_⟩
  · intro s e d s1 hshow hcreate
    simp only [create_service, hsvc, if_true, hshow, swallowShow, hcreate]
  · intro s e s1 hmiss hcreate
    simp only [create_service, hsvc, if_true, hmiss, hcreate]
  · intro s e d s1 hshow hcreate
    simp only [create_dapr_component_from_service, hcomp, if_true, hshow,
      swallowShow, hcreate]
  · intro s e s1 hmiss hcreate
    simp only [create_dapr_component_from_service, hcomp, if_true, hmiss,
      hcreate]

/-- Witness for C3: a raising lookup with a succeeding creation, and a plain
not-found lookup with a raising creation, for both resource kinds. -/
theorem lookup_swallowed_create_raised_witness :
    supported_service_types.contains "redis" = true ∧
      isSupportedComponentPair "state" "redis" = true ∧
      (create_service witClientShowRaises "redis" "dapr-redis" "rg" "env"
          ⟨false, false⟩ =
        ⟨.ok witServiceDef, ⟨true, false⟩, 1, 1⟩) ∧
      (create_service witClientCreateRaises "redis" "dapr-redis" "rg" "env"
          ⟨false, false⟩ =
        ⟨.error (.validationErrorFrom ("Failed to create service " ++
          "dapr-redis" ++ " of type " ++ "redis") "create failed"),
          ⟨false, false⟩, 1, 1⟩) ∧
      (create_dapr_component_from_service witClientShowRaises "state" "redis"
          "dapr-redis" "/subscriptions/s/dapr-redis" "rg" "env"
          ⟨true, false⟩ =
        ⟨.ok witComponentDef, ⟨true, true⟩, 1, 1⟩) ∧
      (create_dapr_component_from_service witClientCreateRaises "state"
          "redis" "dapr-redis" "/subscriptions/s/dapr-redis" "rg" "env"
          ⟨true, false⟩ =
        ⟨.error (.validationErrorFrom ("Failed to create Dapr component " ++
          get_dapr_component_name "state" "redis") "create failed"),
          ⟨true, false⟩, 1, 1⟩) :=
  ⟨by decide, by decide,
    (lookup_swallowed_create_raised witClientShowRaises "state" "redis"
      "dapr-redis" "/subscriptions/s/dapr-redis" "rg" "env" (by decide)
      (by decide)).1 ⟨false, false⟩ "show failed" witServiceDef
      ⟨true, false⟩ rfl rfl,
    (lookup_swallowed_create_raised witClientCreateRaises "state" "redis"
      "dapr-redis" "/subscriptions/s/dapr-redis" "rg" "env" (by decide)
      (by decide)).2.1 ⟨false, false⟩ "create failed" ⟨false, false⟩ rfl rfl,
    (lookup_swallowed_create_raised witClientShowRaises "state" "redis"
      "dapr-redis" "/subscriptions/s/dapr-redis" "rg" "env" (by decide)
      (by decide)).2.2.1 ⟨true, false⟩ "show failed" witComponentDef
      ⟨true, true⟩ rfl rfl,
    (lookup_swallowed_create_raised witClientCreateRaises "state" "redis"
      "dapr-redis" "/subscriptions/s/dapr-redis" "rg" "env" (by decide)
      (by decide)).2.2.2 ⟨true, false⟩ "create failed" ⟨true, false⟩ rfl rfl⟩

/-- A client that creates a service definition lacking an `id`. -/
def witClientServiceNoId : ResourceClient WitState where
  showService := fun _ _ _ => .ok none
  createService := fun _ _ _ _ s =>
    (.ok (some ⟨none, "svc"⟩), { s with serviceCreated := true })
  showComponent := fun _ _ _ _ => .ok none
  createOrUpdateComponent := fun _ _ _ _ s =>
    (.ok (some witComponentDef), { s with componentCreated := true })

/-- A client that creates a component definition lacking an `id`. -/
def witClientComponentNoId : ResourceClient WitState where
  showService := fun _ _ _ => .ok none
  createService := fun _ _ _ _ s =>
    (.ok (some witServiceDef), { s with serviceCreated := true })
  showComponent := fun _ _ _ _ => .ok none
  createOrUpdateComponent := fun _ _ _ _ s =>
    (.ok (some ⟨none, "cmp"⟩), { s with componentCreated := true })

/-- C4: `create_service_and_dapr_component` runs the service step, fails
with the missing-service-id error if the resulting definition has no `id`,
then runs the component step against the resulting client state, fails with
the missing-component-id error if that definition has no `id`, and otherwise
returns both identifiers. -/
theorem provision_orchestration {σ : Type} (c : ResourceClient σ)
    (component_type service_type resource_group_name environment_name :
    String) (s : σ) :
    (∀ d,
      (create_service c service_type (get_service_name service_type)
        resource_group_name environment_name s).result = .ok d →
      d.id = none →
      (create_service_and_dapr_component c component_type service_type
        resource_group_name environment_name s).1 =
        .error (.validationError ("Failed to create service " ++
          get_service_name service_type ++ " of type " ++ service_type ++
          ", service id is None")))
    ∧ (∀ d service_id cd,
      (create_service c service_type (get_service_name service_type)
        resource_group_name environment_name s).result = .ok d →
      d.id = some service_id →
      (create_dapr_component_from_service c component_type service_type
        (get_service_name service_type) service_id resource_group_name
        environment_name
        (create_service c service_type (get_service_name service_type)
          resource_group_name environment_name s).state).result = .ok cd →
      cd.id = none →
      (create_service_and_dapr_component c component_type service_type
        resource_group_name environment_name s).1 =
        .error (.validationError ("Failed to create Dapr component of type "
          ++ component_type ++ " with service type " ++ service_type ++
          ", component id is None")))
    ∧ (∀ d service_id cd component_id,
      (create_service c service_type (get_service_name service_type)
        resource_group_name environment_name s).result = .ok d →
      d.id = some service_id →
      (create_dapr_component_from_service c component_type service_type
        (get_service_name service_type) service_id resource_group_name
        environment_name
        (create_service c service_type (get_service_name service_type)
          resource_group_name environment_name s).state).result = .ok cd →
      cd.id = some component_id →
      (create_service_and_dapr_component c component_type service_type
        resource_group_name environment_name s).1 =
        .ok (service_id, component_id)) := by
  refine ⟨?_, ?_, ?_⟩
  · intro d h1 hid
    simp only [create_service_and_dapr_component, h1, hid]
  · intro d service_id cd h1 hid h2 hcid
    simp only [create_service_and_dapr_component, h1, hid, h2, hcid]
  · intro d service_id cd component_id h1 hid h2 hcid
    simp only [create_service_and_dapr_component, h1, hid, h2, hcid]

/-- Witness for C4: the three paths, each with a concrete client — a
service without id, a component without id, and a fully successful run. -/
theorem provision_orchestration_witness :
    ((create_service witClientServiceNoId "redis" (get_service_name "redis")
        "rg" "env" ⟨false, false⟩).result = .ok ⟨none, "svc"⟩ ∧
      (⟨none, "svc"⟩ : ResourceDef).id = none ∧
      (create_service_and_dapr_component witClientServiceNoId "state" "redis"
        "rg" "env" ⟨false, false⟩).1 =
        .error (.validationError ("Failed to create service " ++
          get_service_name "redis" ++ " of type " ++ "redis" ++
          ", service id is None")))
    ∧ ((create_service_and_dapr_component witClientComponentNoId "state"
        "redis" "rg" "env" ⟨false, false⟩).1 =
        .error (.validationError ("Failed to create Dapr component of type "
          ++ "state" ++ " with service type " ++ "redis" ++
          ", component id is None")))
    ∧ ((create_service_and_dapr_component witClient "state" "redis" "rg"
        "env" ⟨false, false⟩).1 =
        .ok ("/subscriptions/s/dapr-redis", "/subscriptions/s/statestore")) :=
  ⟨⟨rfl, rfl,
    (provision_orchestration witClientServiceNoId "state" "redis" "rg" "env"
      ⟨false, false⟩).1 ⟨none, "svc"⟩ rfl rfl⟩,
    (provision_orchestration witClientComponentNoId "state" "redis" "rg"
      "env" ⟨false, false⟩).2.1 witServiceDef "/subscriptions/s/dapr-redis"
      ⟨none, "cmp"⟩ rfl rfl rfl rfl,
    (provision_orchestration witClient "state" "redis" "rg" "env"
      ⟨false, false⟩).2.2 witServiceDef "/subscriptions/s/dapr-redis"
      witComponentDef "/subscriptions/s/statestore" rfl rfl rfl rfl⟩

end DaprSpec
